import Mathlib

/-!
Verification of the impostor-admin-server stats aggregation code
(`src/index.js`) against its specification.

The JavaScript code is shallowly embedded: JavaScript numbers appearing in
Firestore documents are modelled as `Int` (timestamps, counters) or `ℚ`
(derived rates); fields that may be `undefined`/`null` are modelled as
`Option`; code that can throw and is wrapped in try/catch is modelled with
`Except`.  `Math.round(x)` is `⌊x + 1/2⌋`, which agrees with JavaScript's
rounding on all reals (JS rounds half-way cases toward +∞).
-/

namespace ImpostorAdmin

/-- JavaScript `Math.round`: round half toward +∞, i.e. `⌊x + 1/2⌋`. -/
def mathRound (q : ℚ) : ℤ := ⌊q + 1/2⌋

/-- `Math.round(x * 10) / 10` — rounding to one decimal place, as done in
the return statement of `/api/analytics/balance` (src/index.js:163-165). -/
def round1 (q : ℚ) : ℚ := (mathRound (q * 10) : ℚ) / 10

/-- JavaScript truthiness of a possibly-absent number: `undefined`, `null`
and `0` are falsy, every other number is truthy. -/
def jsTruthyNum : Option Int → Bool
  | none => false
  | some n => n != 0

/-! ## Telemetry (game-server fetch inside `/api/stats`, src/index.js:63-76) -/

/-- The four integer fields the admin server reads off the game server's
JSON body.  Each is `Option Int` because a parsed JSON object need not
contain a field (`data.connectedUsers` is `undefined` when absent). -/
structure JsonStats where
  connectedUsers : Option Int
  activeMatches : Option Int
  usersInLobby : Option Int
  usersInMatch : Option Int
deriving DecidableEq

/-- Outcome of `fetch(GAME_SERVER_URL + "/api/stats")` followed by
`response.json()`:
* `fetchError` — the `fetch` call itself threw (network error);
* `response ok body` — an HTTP response arrived; `ok` is `response.ok`
  (status in the 2xx range) and `body` is the result of `response.json()`,
  which throws (`Except.error`) when the body is not parseable JSON. -/
inductive TelemetryOutcome where
  | fetchError
  | response (ok : Bool) (body : Except Unit JsonStats)

/-- The live-stats object assembled by `/api/stats` (src/index.js:56-76).
Fields are `Option Int`: the JavaScript object's fields hold whatever
`data.<field>` was, which is `undefined` when the parsed body lacks it. -/
structure LiveSnapshot where
  connectedUsers : Option Int
  activeMatches : Option Int
  usersInLobby : Option Int
  usersInMatch : Option Int
deriving DecidableEq

/-- The initial value of `liveStats` (src/index.js:56-61): all zeros. -/
def zeroLiveStats : LiveSnapshot :=
  { connectedUsers := some 0, activeMatches := some 0
    usersInLobby := some 0, usersInMatch := some 0 }

/-- src/index.js:56-76: `liveStats` starts zeroed and is overwritten with
the parsed body's fields only when the fetch succeeded, the status was ok,
and `response.json()` did not throw; every throw is caught and logged. -/
def fetchLiveStats : TelemetryOutcome → LiveSnapshot
  | .fetchError => zeroLiveStats
  | .response false _ => zeroLiveStats
  | .response true (.error _) => zeroLiveStats
  | .response true (.ok d) =>
    { connectedUsers := d.connectedUsers, activeMatches := d.activeMatches
      usersInLobby := d.usersInLobby, usersInMatch := d.usersInMatch }

/-- The three telemetry failure outcomes named by the spec: network error,
non-success HTTP status, or a body that fails JSON parsing. -/
def telemetryFailed : TelemetryOutcome → Bool
  | .fetchError => true
  | .response ok body => !ok || (match body with | .error _ => true | .ok _ => false)

/-! ## Firestore-backed reads for `/api/stats` (src/index.js:79-101) -/

/-- A document of the `peak_stats` collection; only its `date` key matters
to the aggregation logic (dates modelled as integers, ordered as Firestore
orders the `date` field). -/
structure PeakStatSnapshot where
  date : Int
deriving DecidableEq

/-- `db.collection('peak_stats').orderBy('date','desc')` — sort the
collection by `date` descending (Firestore returns a total order on the
documents; ties on `date` are returned in a stable order). -/
def orderByDateDesc (coll : List PeakStatSnapshot) : List PeakStatSnapshot :=
  List.insertionSort (fun a b => b.date ≤ a.date) coll

/-- The `peak_stats` query of src/index.js:79-82: order by `date`
descending, `limit(7)`. -/
def peakStatsQuery (coll : List PeakStatSnapshot) : List PeakStatSnapshot :=
  (orderByDateDesc coll).take 7

/-- src/index.js:84: `historySnapshot.docs.map(doc => doc.data()).reverse()`. -/
def statsHistory (coll : List PeakStatSnapshot) : List PeakStatSnapshot :=
  (peakStatsQuery coll).reverse

/-- The JSON object returned by a successful `/api/stats` request
(src/index.js:92-101). -/
structure StatsResult where
  live : LiveSnapshot
  history : List PeakStatSnapshot
  totalUsers : Nat
  totalMatches : Nat
  activeUsers : Option Int
  avgTime : String
  winRatio : String
deriving DecidableEq

/-- The `/api/stats` handler (src/index.js:51-109).  Its inputs are the
outcomes of its awaited I/O:  the telemetry outcome, and the three
Firestore reads — the `peak_stats` collection fetch and the two `count()`
aggregations — each of which either yields data (`.ok`) or throws
(`.error`).  A throw from any Firestore read reaches the outer catch,
which replies 500 `'Failed to fetch dashboard stats'`; the telemetry
outcome is absorbed by the inner try/catch inside `fetchLiveStats`. -/
def apiStats (t : TelemetryOutcome) (peakColl : Except String (List PeakStatSnapshot))
    (usersCount matchesCount : Except String Nat) : Except String StatsResult :=
  match peakColl, usersCount, matchesCount with
  | .ok coll, .ok totalUsers, .ok totalMatches =>
    let liveStats := fetchLiveStats t
    .ok { live := liveStats
          history := statsHistory coll
          totalUsers := totalUsers
          totalMatches := totalMatches
          activeUsers := liveStats.connectedUsers
          avgTime := "12m"
          winRatio := "48%" }
  | _, _, _ => .error "Failed to fetch dashboard stats"

/-! ## Balance analytics (`/api/analytics/balance`, src/index.js:116-172) -/

/-- One entry of a match's `players` array; only `abandoned` is read by
the analytics (`p.abandoned` is tested for truthiness). -/
structure PlayerParticipation where
  abandoned : Bool
deriving DecidableEq

/-- A document of the `matches` collection, with the fields the balance
analytics reads.  `startedAt`/`endedAt` are millisecond timestamps that
may be absent or null (`none`); `winningTeam` may be absent (`none`) or
any string; `players` may be absent or not an array (`none`). -/
structure MatchRecord where
  startedAt : Option Int
  endedAt : Option Int
  winningTeam : Option String
  players : Option (List PlayerParticipation)
deriving DecidableEq

/-- The JSON object returned by a successful `/api/analytics/balance`
request (src/index.js:127-132 and 162-167). -/
structure BalanceResult where
  impostorWinRate : ℚ
  avgDurationMinutes : ℚ
  abandonmentRate : ℚ
  sampleSize : Nat
deriving DecidableEq

/-- src/index.js:142: `matches.filter(m => m.startedAt && m.endedAt)` —
JavaScript truthiness, so a `0` timestamp fails the test just like an
absent one. -/
def matchesWithDuration (matchList : List MatchRecord) : List MatchRecord :=
  matchList.filter (fun m => jsTruthyNum m.startedAt && jsTruthyNum m.endedAt)

/-- src/index.js:150-159: the nested `forEach` accumulating
`(totalPlayers, abandonedPlayers)` counters over every match's `players`
array (skipping matches whose `players` is absent or not an array). -/
def participationCounts (matchList : List MatchRecord) : Nat × Nat :=
  matchList.foldl
    (fun acc m =>
      match m.players with
      | some ps =>
        ps.foldl (fun a p => (a.1 + 1, if p.abandoned then a.2 + 1 else a.2)) acc
      | none => acc)
    (0, 0)

/-- The body of `/api/analytics/balance` applied to the fetched match
sample (src/index.js:124-167): empty-sample short-circuit, impostor win
rate, average duration, abandonment rate, each rounded to one decimal. -/
def balanceAnalytics (matchList : List MatchRecord) : BalanceResult :=
  if matchList.length = 0 then
    { impostorWinRate := 0, avgDurationMinutes := 0
      abandonmentRate := 0, sampleSize := 0 }
  else
    let impostorWins := (matchList.filter (fun m => m.winningTeam == some "impostor")).length
    let friendsWins := (matchList.filter (fun m => m.winningTeam == some "friends")).length
    let validMatches := impostorWins + friendsWins
    let impostorWinRate : ℚ :=
      if validMatches > 0 then ((impostorWins : ℚ) / (validMatches : ℚ)) * 100 else 0
    let withDuration := matchesWithDuration matchList
    let totalDuration : Int :=
      withDuration.foldl (fun sum m => sum + (m.endedAt.getD 0 - m.startedAt.getD 0)) 0
    let avgDurationMs : ℚ :=
      if withDuration.length > 0 then (totalDuration : ℚ) / (withDuration.length : ℚ) else 0
    let avgDurationMinutes : ℚ := avgDurationMs / 60000
    let counts := participationCounts matchList
    let abandonmentRate : ℚ :=
      if counts.1 > 0 then ((counts.2 : ℚ) / (counts.1 : ℚ)) * 100 else 0
    { impostorWinRate := round1 impostorWinRate
      avgDurationMinutes := round1 avgDurationMinutes
      abandonmentRate := round1 abandonmentRate
      sampleSize := matchList.length }

/-- The `/api/analytics/balance` handler with its try/catch: a throwing
Firestore fetch of the match sample replies 500
`'Failed to fetch balance analytics'` (src/index.js:168-171). -/
def apiBalance (matchSample : Except String (List MatchRecord)) :
    Except String BalanceResult :=
  match matchSample with
  | .ok matchList => .ok (balanceAnalytics matchList)
  | .error _ => .error "Failed to fetch balance analytics"

/-! ## Player leaderboards (`/api/analytics/players`, src/index.js:175-207) -/

/-- A document of the `player_stats` collection with the two keys the
leaderboard queries order by, plus the document id. -/
structure PlayerStatRecord where
  uid : String
  points : Int
  gamesPlayed : Int
deriving DecidableEq

/-- The JSON object returned by a successful `/api/analytics/players`
request (src/index.js:199-202). -/
structure PlayersResult where
  topByPoints : List PlayerStatRecord
  topByGames : List PlayerStatRecord
deriving DecidableEq

/-- `db.collection('player_stats').orderBy('points','desc').limit(10)`
(src/index.js:178-181). -/
def topByPointsOf (coll : List PlayerStatRecord) : List PlayerStatRecord :=
  (List.insertionSort (fun a b => b.points ≤ a.points) coll).take 10

/-- `db.collection('player_stats').orderBy('gamesPlayed','desc').limit(10)`
(src/index.js:189-192). -/
def topByGamesOf (coll : List PlayerStatRecord) : List PlayerStatRecord :=
  (List.insertionSort (fun a b => b.gamesPlayed ≤ a.gamesPlayed) coll).take 10

/-- The success path of `/api/analytics/players` (src/index.js:175-202). -/
def playerAnalytics (coll : List PlayerStatRecord) : PlayersResult :=
  { topByPoints := topByPointsOf coll, topByGames := topByGamesOf coll }

/-- The `/api/analytics/players` handler with its try/catch
(src/index.js:203-206). -/
def apiPlayers (coll : Except String (List PlayerStatRecord)) :
    Except String PlayersResult :=
  match coll with
  | .ok c => .ok (playerAnalytics c)
  | .error _ => .error "Failed to fetch player analytics"

/-! ## Feedback (`/api/feedback`, src/index.js:30-48) -/

/-- A document of the `feedback` collection: the store-assigned id and the
(possibly absent) `createdAt` timestamp; other payload fields are passed
through untouched and not modelled. -/
structure FeedbackEntry where
  id : String
  createdAt : Option Int
deriving DecidableEq

/-- The `/api/feedback` handler (src/index.js:30-48): on a successful
fetch it returns the documents (ordered by `createdAt` descending by the
query); a throwing fetch replies 500 `'Failed to fetch feedback'`. -/
def apiFeedback (fetched : Except String (List FeedbackEntry)) :
    Except String (List FeedbackEntry) :=
  match fetched with
  | .ok entries => .ok entries
  | .error _ => .error "Failed to fetch feedback"

/-! ## Activity analytics (`/api/analytics/activity`, src/index.js:210-252) -/

/-- The JSON object returned by a successful `/api/analytics/activity`
request (src/index.js:241-247). -/
structure ActivityResult where
  dau : Nat
  wau : Nat
  newUsersToday : Nat
  totalUsers : Nat
  dauWauRatio : ℤ
deriving DecidableEq

/-- The success path of `/api/analytics/activity` (src/index.js:241-247)
applied to the four fetched counts:
`dauWauRatio = wau > 0 ? Math.round((dau / wau) * 100) : 0` — an integer
percentage. -/
def activityAnalytics (dau wau newUsersToday totalUsers : Nat) : ActivityResult :=
  { dau := dau, wau := wau, newUsersToday := newUsersToday, totalUsers := totalUsers
    dauWauRatio := if wau > 0 then mathRound ((dau : ℚ) / (wau : ℚ) * 100) else 0 }

/-- The `/api/analytics/activity` handler (src/index.js:210-252).  Its
inputs are the outcomes of its four awaited Firestore `count()` reads —
players with `lastPlayedAt >= todayStart` (dau), `lastPlayedAt >=
weekAgoStart` (wau), `firstSeenAt >= todayStart` (new users today), and
the unfiltered player count — each of which either yields a count (`.ok`)
or throws (`.error`).  A throw from any of them reaches the catch, which
replies 500 `'Failed to fetch activity analytics'` (src/index.js:248-251). -/
def apiActivity (dauCount wauCount newTodayCount totalUsersCount : Except String Nat) :
    Except String ActivityResult :=
  match dauCount, wauCount, newTodayCount, totalUsersCount with
  | .ok dau, .ok wau, .ok newToday, .ok total =>
    .ok (activityAnalytics dau wau newToday total)
  | _, _, _, _ => .error "Failed to fetch activity analytics"

/-! ## I/O trace of the `/api/stats` handler (src/index.js:63-90)

The handler is an `async` function whose awaited operations are, in
source order: the telemetry `fetch` (line 64), the `peak_stats` query
(line 79), the `player_stats` count (line 89) and the `matches` count
(line 90).  Each `await` suspends the handler until that operation
completes before the next statement runs, so the handler's I/O trace
interleaves issue/completion events strictly sequentially.  `awaitOp`
records exactly that semantics: issuing the operation and completing it
before control returns. -/

/-- The four awaited I/O operations of the `/api/stats` handler. -/
inductive IoOp where
  | telemetryFetch
  | peakQuery
  | countPlayers
  | countMatches
deriving DecidableEq

/-- An event of the handler's I/O trace: an operation being issued, or an
operation completing. -/
inductive IoEvent where
  | issue (op : IoOp)
  | complete (op : IoOp)
deriving DecidableEq

/-- `await op`: the operation is issued and completes before control
returns to the handler — no other operation of this handler runs in
between. -/
def awaitOp (op : IoOp) (trace : List IoEvent) : List IoEvent :=
  trace ++ [.issue op, .complete op]

/-- The I/O trace of one `/api/stats` request, following the handler's
statement order (src/index.js:64, 79, 89, 90). -/
def apiStatsTrace : List IoEvent :=
  awaitOp .countMatches (awaitOp .countPlayers (awaitOp .peakQuery (awaitOp .telemetryFetch [])))

/-- Elapsed time of a trace when operation `op` takes `d op` time units:
each completion adds its operation's duration (the handler is suspended,
not computing, while an awaited operation runs; handler-side computation
is counted as free). -/
def traceLatency (d : IoOp → Nat) (trace : List IoEvent) : Nat :=
  trace.foldl (fun acc e => match e with | .issue _ => acc | .complete op => acc + d op) 0

/-! ## Spec-side formulas

These definitions restate, in the specification's terms, the metrics the
analytics code is claimed to compute; the claim theorems relate the code
above to them. -/

/-- Spec: `impostorWins` — the number of matches in the sample whose
`winningTeam` is `'impostor'`. -/
def specImpostorWins (matchList : List MatchRecord) : Nat :=
  matchList.countP (fun m => m.winningTeam == some "impostor")

/-- Spec: `friendsWins` — the number of matches in the sample whose
`winningTeam` is `'friends'`. -/
def specFriendsWins (matchList : List MatchRecord) : Nat :=
  matchList.countP (fun m => m.winningTeam == some "friends")

/-- Spec: `validMatches = impostorWins + friendsWins`. -/
def specValidMatches (matchList : List MatchRecord) : Nat :=
  specImpostorWins matchList + specFriendsWins matchList

/-- Spec: `impostorWinRate = validMatches > 0 ? impostorWins/validMatches*100 : 0`
(before rounding). -/
def specImpostorWinRate (matchList : List MatchRecord) : ℚ :=
  if specValidMatches matchList > 0 then
    ((specImpostorWins matchList : ℚ) / (specValidMatches matchList : ℚ)) * 100
  else 0

/-- Spec: the summed duration `endedAt - startedAt` over the matches that
enter the duration average. -/
def specTotalDurationMs (matchList : List MatchRecord) : Int :=
  ((matchesWithDuration matchList).map (fun m => m.endedAt.getD 0 - m.startedAt.getD 0)).sum

/-- Spec: `avgDurationMinutes` — the average duration over the matches
that enter the duration average, converted to minutes (before rounding);
`0` when no match qualifies. -/
def specAvgDurationMinutes (matchList : List MatchRecord) : ℚ :=
  if (matchesWithDuration matchList).length > 0 then
    ((specTotalDurationMs matchList : ℚ) / ((matchesWithDuration matchList).length : ℚ)) / 60000
  else 0

/-- Spec: the total number of player participations across every match of
the sample (matches without a `players` array contribute none). -/
def specTotalParticipations (matchList : List MatchRecord) : Nat :=
  (matchList.map (fun m => (m.players.getD []).length)).sum

/-- Spec: the number of abandoned player participations across every
match of the sample. -/
def specAbandonedParticipations (matchList : List MatchRecord) : Nat :=
  (matchList.map (fun m => (m.players.getD []).countP (·.abandoned))).sum

/-- Spec: `abandonmentRate = abandoned/total*100` over all participations
(before rounding), `0` when there are none. -/
def specAbandonmentRate (matchList : List MatchRecord) : ℚ :=
  if specTotalParticipations matchList > 0 then
    ((specAbandonedParticipations matchList : ℚ) / (specTotalParticipations matchList : ℚ)) * 100
  else 0

/-! ## Concrete inputs used by the claims' worked examples -/

/-- A match carrying only a winning team, as used by the win-rate example. -/
def winOnly (t : String) : MatchRecord :=
  { startedAt := none, endedAt := none, winningTeam := some t, players := none }

/-- The win-rate example sample: 3 impostor wins, 2 friends wins. -/
def exWinRate : List MatchRecord :=
  [winOnly "impostor", winOnly "impostor", winOnly "impostor",
   winOnly "friends", winOnly "friends"]

/-- The duration example sample: two matches of 600000 ms and 900000 ms. -/
def exDuration : List MatchRecord :=
  [{ startedAt := some 1000, endedAt := some 601000, winningTeam := none, players := none },
   { startedAt := some 1000, endedAt := some 901000, winningTeam := none, players := none }]

/-- The abandonment example sample: participations
`{abandoned: true}×1, {abandoned: false}×3`. -/
def exAbandon : List MatchRecord :=
  [{ startedAt := none, endedAt := none, winningTeam := none,
     players := some [⟨true⟩, ⟨false⟩, ⟨false⟩, ⟨false⟩] }]

/-- A match whose `startedAt` is the epoch timestamp `0`. -/
def exEpochMatch : MatchRecord :=
  { startedAt := some 0, endedAt := some 901000, winningTeam := none, players := none }

/-- Two players tied on `points`: a tie witness against strictly
descending leaderboard order. -/
def exTie : List PlayerStatRecord :=
  [{ uid := "a", points := 5, gamesPlayed := 1 },
   { uid := "b", points := 5, gamesPlayed := 2 }]

/-- Two players whose points and games rankings are opposite. -/
def exOrderDiff : List PlayerStatRecord :=
  [{ uid := "p", points := 10, gamesPlayed := 1 },
   { uid := "q", points := 1, gamesPlayed := 10 }]

/-- Eleven players: `grinder` has the most games but the fewest points,
so it enters the top-10-by-games but not the top-10-by-points. -/
def exMemDiff : List PlayerStatRecord :=
  { uid := "grinder", points := 0, gamesPlayed := 100 } ::
    (List.range 10).map (fun i => { uid := "p", points := (i : Int) + 1, gamesPlayed := 1 })

/-! ## Helper lemmas -/

theorem round1_zero : round1 0 = 0 := by
  unfold round1 mathRound
  norm_num

/-- Pin down `round1 q` when `q * 10` rounds to the integer `n`. -/
theorem round1_eq (q : ℚ) (n : ℤ) (h1 : (n : ℚ) ≤ q * 10 + 1/2) (h2 : q * 10 + 1/2 < n + 1) :
    round1 q = (n : ℚ) / 10 := by
  unfold round1 mathRound
  rw [Int.floor_eq_iff.mpr ⟨h1, h2⟩]

/-- A fold summing `f` over a list is the sum of the mapped list. -/
theorem foldl_add_int (f : MatchRecord → Int) (l : List MatchRecord) (init : Int) :
    l.foldl (fun s m => s + f m) init = init + (l.map f).sum := by
  induction l generalizing init with
  | nil => simp
  | cons m l ih => simp [ih, add_assoc]

/-- The inner `players.forEach` counter loop counts participations and
abandoned participations. -/
theorem participation_fold_inner (ps : List PlayerParticipation) (acc : Nat × Nat) :
    ps.foldl (fun a p => (a.1 + 1, if p.abandoned then a.2 + 1 else a.2)) acc
      = (acc.1 + ps.length, acc.2 + ps.countP (·.abandoned)) := by
  induction ps generalizing acc with
  | nil => simp
  | cons p ps ih =>
    rw [List.foldl_cons, ih, List.length_cons, List.countP_cons]
    cases hp : p.abandoned <;> simp [hp] <;> omega

/-- The nested `forEach` counters equal the spec-side participation sums. -/
theorem participationCounts_eq (matchList : List MatchRecord) :
    participationCounts matchList
      = (specTotalParticipations matchList, specAbandonedParticipations matchList) := by
  suffices h : ∀ acc : Nat × Nat,
      matchList.foldl
        (fun acc m =>
          match m.players with
          | some ps =>
            ps.foldl (fun a p => (a.1 + 1, if p.abandoned then a.2 + 1 else a.2)) acc
          | none => acc)
        acc
      = (acc.1 + specTotalParticipations matchList,
         acc.2 + specAbandonedParticipations matchList) by
    simpa [participationCounts] using h (0, 0)
  induction matchList with
  | nil => intro acc; simp [specTotalParticipations, specAbandonedParticipations]
  | cons m l ih =>
    intro acc
    rw [List.foldl_cons]
    cases hp : m.players with
    | none =>
      simp only [hp]
      rw [ih]
      simp [specTotalParticipations, specAbandonedParticipations, hp]
    | some ps =>
      simp only [hp]
      rw [ih, participation_fold_inner]
      simp [specTotalParticipations, specAbandonedParticipations, hp]
      omega

/-! ## Claim theorems -/

/-- C1: the telemetry fetch never fails the aggregated-stats operation —
for every telemetry failure outcome (network error, non-success HTTP
status, or a body that fails JSON parsing), the `/api/stats` call still
succeeds, its `live` portion is the zero-valued snapshot
(`connectedUsers=0, activeMatches=0, usersInLobby=0, usersInMatch=0`),
and the mirrored `activeUsers` field is `0`. -/
theorem telemetry_failure_absorbed (t : TelemetryOutcome)
    (h : telemetryFailed t = true)
    (coll : List PeakStatSnapshot) (tu tm : Nat) :
    apiStats t (.ok coll) (.ok tu) (.ok tm) =
      .ok { live := zeroLiveStats, history := statsHistory coll, totalUsers := tu,
            totalMatches := tm, activeUsers := some 0, avgTime := "12m", winRatio := "48%" } := by
  have hlive : fetchLiveStats t = zeroLiveStats := by
    cases t with
    | fetchError => rfl
    | response ok body =>
      cases ok <;> cases body <;> simp_all [telemetryFailed, fetchLiveStats]
  simp [apiStats, hlive, zeroLiveStats]

/-- C1 witness: a concrete network error leaves the aggregated stats call
successful with zeroed live figures. -/
theorem telemetry_failure_absorbed_witness :
    apiStats .fetchError (.ok []) (.ok 0) (.ok 0) =
      .ok { live := zeroLiveStats, history := statsHistory [], totalUsers := 0,
            totalMatches := 0, activeUsers := some 0, avgTime := "12m", winRatio := "48%" } :=
  telemetry_failure_absorbed .fetchError rfl [] 0 0

/-- C2: any repository failure makes the aggregated-stats operation fail
with the single generic aggregation failure, with no partial payload and
regardless of how many sub-queries failed; the balance, players, activity
and feedback operations — each touching only the repository — likewise
each fail with their own single generic failure when any of their store
reads fails. -/
theorem repository_failure_fatal :
    (∀ (t : TelemetryOutcome) (peakColl : Except String (List PeakStatSnapshot))
       (usersCount matchesCount : Except String Nat),
      (peakColl.isOk = false ∨ usersCount.isOk = false ∨ matchesCount.isOk = false) →
      apiStats t peakColl usersCount matchesCount = .error "Failed to fetch dashboard stats")
    ∧ (∀ e, apiBalance (.error e) = .error "Failed to fetch balance analytics")
    ∧ (∀ e, apiPlayers (.error e) = .error "Failed to fetch player analytics")
    ∧ (∀ (dauCount wauCount newTodayCount totalUsersCount : Except String Nat),
      (dauCount.isOk = false ∨ wauCount.isOk = false ∨ newTodayCount.isOk = false
        ∨ totalUsersCount.isOk = false) →
      apiActivity dauCount wauCount newTodayCount totalUsersCount =
        .error "Failed to fetch activity analytics")
    ∧ (∀ e, apiFeedback (.error e) = .error "Failed to fetch feedback") := by
  refine ⟨?_, fun _ => rfl, fun _ => rfl, ?_, fun _ => rfl⟩
  · intro t peakColl usersCount matchesCount h
    cases peakColl <;> cases usersCount <;> cases matchesCount <;>
      simp_all [apiStats, Except.isOk, Except.toBool]
  · intro dauCount wauCount newTodayCount totalUsersCount h
    cases dauCount <;> cases wauCount <;> cases newTodayCount <;> cases totalUsersCount <;>
      simp_all [apiActivity, Except.isOk, Except.toBool]

/-- C2 witness: with the `peak_stats` fetch failing (and the counters
fine), the aggregated stats call fails with the generic message. -/
theorem repository_failure_fatal_witness :
    apiStats .fetchError (.error "store down") (.ok 0) (.ok 0) =
      .error "Failed to fetch dashboard stats" :=
  repository_failure_fatal.1 .fetchError (.error "store down") (.ok 0) (.ok 0) (Or.inl rfl)

/-- C10: a match whose `startedAt` or `endedAt` is absent/null (`none`)
or equal to `0` is excluded from the set of matches the duration average
ranges over — the zero (epoch) timestamp is treated exactly like a
missing one by the truthiness filter. -/
theorem zero_or_missing_timestamp_excluded (matchList : List MatchRecord) (m : MatchRecord)
    (h : m.startedAt = none ∨ m.startedAt = some 0 ∨ m.endedAt = none ∨ m.endedAt = some 0) :
    m ∉ matchesWithDuration matchList := by
  intro hmem
  rw [matchesWithDuration, List.mem_filter] at hmem
  rcases h with h | h | h | h <;> rw [h] at hmem <;> simp [jsTruthyNum] at hmem

/-- C10 witness: the concrete epoch-started match is dropped from the
duration set even though both its timestamp fields are present. -/
theorem zero_or_missing_timestamp_excluded_witness :
    exEpochMatch ∉ matchesWithDuration [exEpochMatch] :=
  zero_or_missing_timestamp_excluded [exEpochMatch] exEpochMatch (Or.inr (Or.inl rfl))

/-- C3: for every match sample, the impostor win rate returned by the
balance analytics equals `impostorWins/validMatches*100` rounded to one
decimal when `validMatches > 0` and `0` otherwise, where `impostorWins`
counts the matches with `winningTeam = 'impostor'`, `friendsWins` those
with `'friends'`, and `validMatches` is their sum; in particular a sample
with `impostorWins=3, friendsWins=2` yields `60.0`. -/
theorem impostor_win_rate_formula :
    (∀ matchList : List MatchRecord,
      (balanceAnalytics matchList).impostorWinRate = round1 (specImpostorWinRate matchList))
    ∧ (balanceAnalytics exWinRate).impostorWinRate = 60 := by
  have hgen : ∀ matchList : List MatchRecord,
      (balanceAnalytics matchList).impostorWinRate = round1 (specImpostorWinRate matchList) := by
    intro ms
    by_cases h : ms.length = 0
    · have hnil : ms = [] := List.length_eq_zero.mp h
      subst hnil
      simp [balanceAnalytics, specImpostorWinRate, specValidMatches, specImpostorWins,
        specFriendsWins, round1_zero]
    · simp only [balanceAnalytics, if_neg h]
      congr 1
      simp [specImpostorWinRate, specValidMatches, specImpostorWins, specFriendsWins,
        List.countP_eq_length_filter]
  refine ⟨hgen, ?_⟩
  rw [hgen exWinRate]
  have h1 : specImpostorWins exWinRate = 3 := by decide
  have h2 : specFriendsWins exWinRate = 2 := by decide
  have hrate : specImpostorWinRate exWinRate = 60 := by
    rw [specImpostorWinRate, specValidMatches, h1, h2]
    norm_num
  rw [hrate, round1_eq 60 600 (by norm_num) (by norm_num)]
  norm_num

/-- C4: for every match sample, the average-duration metric returned by
the balance analytics equals the average of `endedAt - startedAt` over
the matches entering the duration set, converted to minutes and rounded
to one decimal (and `0` when the duration set is empty); the matches
entering the set are those whose two timestamps are present in the sense
of the code's truthiness test (non-null and non-zero, cf. C10).  In
particular two matches with durations 600000 ms and 900000 ms yield
`12.5`. -/
theorem avg_duration_formula :
    (∀ matchList : List MatchRecord,
      (balanceAnalytics matchList).avgDurationMinutes = round1 (specAvgDurationMinutes matchList))
    ∧ (balanceAnalytics exDuration).avgDurationMinutes = 12.5 := by
  have hgen : ∀ matchList : List MatchRecord,
      (balanceAnalytics matchList).avgDurationMinutes = round1 (specAvgDurationMinutes matchList) := by
    intro ms
    by_cases h : ms.length = 0
    · have hnil : ms = [] := List.length_eq_zero.mp h
      subst hnil
      simp [balanceAnalytics, specAvgDurationMinutes, matchesWithDuration, round1_zero]
    · simp only [balanceAnalytics, if_neg h]
      congr 1
      simp only [specAvgDurationMinutes, specTotalDurationMs]
      rw [foldl_add_int, zero_add]
      split_ifs with hc
      · rfl
      · exact zero_div _
  refine ⟨hgen, ?_⟩
  rw [hgen exDuration]
  have hd : specTotalDurationMs exDuration = 1500000 := by decide
  have hl : (matchesWithDuration exDuration).length = 2 := by decide
  have hspec : specAvgDurationMinutes exDuration = 25/2 := by
    rw [specAvgDurationMinutes, hd, hl]
    norm_num
  rw [hspec, round1_eq (25/2) 125 (by norm_num) (by norm_num)]
  norm_num

/-- C5: for every match sample, the abandonment rate returned by the
balance analytics equals `abandoned/total*100` over the player
participations of every match of the sample (matches with unknown outcome
included), rounded to one decimal, and `0` when there are no
participations; in particular participations
`{abandoned: true}×1, {abandoned: false}×3` yield `25.0`. -/
theorem abandonment_rate_formula :
    (∀ matchList : List MatchRecord,
      (balanceAnalytics matchList).abandonmentRate = round1 (specAbandonmentRate matchList))
    ∧ (balanceAnalytics exAbandon).abandonmentRate = 25 := by
  have hgen : ∀ matchList : List MatchRecord,
      (balanceAnalytics matchList).abandonmentRate = round1 (specAbandonmentRate matchList) := by
    intro ms
    by_cases h : ms.length = 0
    · have hnil : ms = [] := List.length_eq_zero.mp h
      subst hnil
      simp [balanceAnalytics, specAbandonmentRate, specTotalParticipations,
        specAbandonedParticipations, round1_zero]
    · simp only [balanceAnalytics, if_neg h]
      congr 1
      rw [participationCounts_eq]
      simp [specAbandonmentRate]
  refine ⟨hgen, ?_⟩
  rw [hgen exAbandon]
  have h1 : specTotalParticipations exAbandon = 4 := by decide
  have h2 : specAbandonedParticipations exAbandon = 1 := by decide
  have hrate : specAbandonmentRate exAbandon = 25 := by
    rw [specAbandonmentRate, h1, h2]
    norm_num
  rw [hrate, round1_eq 25 250 (by norm_num) (by norm_num)]
  norm_num

/-- C6: the empty match sample short-circuits to the all-zero balance
result `{impostorWinRate=0, avgDurationMinutes=0, abandonmentRate=0,
sampleSize=0}`, and for every sample the returned `sampleSize` is the
number of matches in the sample. -/
theorem empty_sample_and_size :
    balanceAnalytics ([] : List MatchRecord) =
      { impostorWinRate := 0, avgDurationMinutes := 0, abandonmentRate := 0, sampleSize := 0 }
    ∧ ∀ matchList : List MatchRecord,
        (balanceAnalytics matchList).sampleSize = matchList.length := by
  refine ⟨rfl, ?_⟩
  intro ms
  by_cases h : ms.length = 0
  · simp [balanceAnalytics, h]
  · simp only [balanceAnalytics, if_neg h]

/-- C7: the recent-peak-stats read returns at most 7 snapshots; they are
the most recent ones — the query orders by `date` descending, and every
snapshot left out dates no later than every one selected — and the
returned sequence is reversed to ascending `date` order (oldest first). -/
theorem peak_history_recent_ascending (coll : List PeakStatSnapshot) :
    (statsHistory coll).length ≤ 7
    ∧ (statsHistory coll).Pairwise (fun a b => a.date ≤ b.date)
    ∧ List.Perm (peakStatsQuery coll ++ (orderByDateDesc coll).drop 7) coll
    ∧ (∀ x ∈ peakStatsQuery coll, ∀ y ∈ (orderByDateDesc coll).drop 7, y.date ≤ x.date) := by
  haveI : IsTotal PeakStatSnapshot (fun a b => b.date ≤ a.date) :=
    ⟨fun a b => le_total b.date a.date⟩
  haveI : IsTrans PeakStatSnapshot (fun a b => b.date ≤ a.date) :=
    ⟨fun _ _ _ h1 h2 => le_trans h2 h1⟩
  have hsort : (orderByDateDesc coll).Pairwise (fun a b => b.date ≤ a.date) :=
    List.sorted_insertionSort _ coll
  have hsplit :
      (orderByDateDesc coll).take 7 ++ (orderByDateDesc coll).drop 7 = orderByDateDesc coll :=
    List.take_append_drop 7 _
  have happ :
      ((orderByDateDesc coll).take 7 ++ (orderByDateDesc coll).drop 7).Pairwise
        (fun a b => b.date ≤ a.date) := by
    rw [hsplit]; exact hsort
  refine ⟨?_, ?_, ?_, ?_⟩
  · simp only [statsHistory, peakStatsQuery, List.length_reverse, List.length_take]
    omega
  · rw [statsHistory]
    exact List.pairwise_reverse.mpr (hsort.sublist (List.take_sublist 7 _))
  · rw [peakStatsQuery, hsplit]
    exact List.perm_insertionSort _ coll
  · intro x hx y hy
    exact (List.pairwise_append.mp happ).2.2 x hx y hy

/-- C8 counterexample: with two players tied on `points`, the
top-by-points leaderboard is not sorted strictly descending on `points`
(the claim's strictness fails on ties). -/
theorem leaderboards_strict_desc_fails :
    ¬ (playerAnalytics exTie).topByPoints.Pairwise (fun a b => b.points < a.points) := by
  have hlist : (playerAnalytics exTie).topByPoints =
      [{ uid := "a", points := 5, gamesPlayed := 1 },
       { uid := "b", points := 5, gamesPlayed := 2 }] := by decide
  rw [hlist]
  intro h
  simp [List.pairwise_cons] at h

/-- C8 (amended): for every set of player records, the two leaderboards
are independent top-10 views — each has at most 10 records and each is
sorted descending (non-strictly: tied keys may repeat) on its own key —
and the two lists may differ in order and in membership for the same
input, as the concrete inputs show. -/
theorem leaderboards_top10_sorted :
    (∀ coll : List PlayerStatRecord,
      (playerAnalytics coll).topByPoints.length ≤ 10
      ∧ (playerAnalytics coll).topByGames.length ≤ 10
      ∧ (playerAnalytics coll).topByPoints.Pairwise (fun a b => b.points ≤ a.points)
      ∧ (playerAnalytics coll).topByGames.Pairwise (fun a b => b.gamesPlayed ≤ a.gamesPlayed))
    ∧ (playerAnalytics exOrderDiff).topByPoints ≠ (playerAnalytics exOrderDiff).topByGames
    ∧ ({ uid := "grinder", points := 0, gamesPlayed := 100 } : PlayerStatRecord)
        ∈ (playerAnalytics exMemDiff).topByGames
    ∧ ({ uid := "grinder", points := 0, gamesPlayed := 100 } : PlayerStatRecord)
        ∉ (playerAnalytics exMemDiff).topByPoints := by
  refine ⟨?_, by decide, by decide, by decide⟩
  intro coll
  haveI : IsTotal PlayerStatRecord (fun a b => b.points ≤ a.points) :=
    ⟨fun a b => le_total b.points a.points⟩
  haveI : IsTrans PlayerStatRecord (fun a b => b.points ≤ a.points) :=
    ⟨fun _ _ _ h1 h2 => le_trans h2 h1⟩
  haveI : IsTotal PlayerStatRecord (fun a b => b.gamesPlayed ≤ a.gamesPlayed) :=
    ⟨fun a b => le_total b.gamesPlayed a.gamesPlayed⟩
  haveI : IsTrans PlayerStatRecord (fun a b => b.gamesPlayed ≤ a.gamesPlayed) :=
    ⟨fun _ _ _ h1 h2 => le_trans h2 h1⟩
  refine ⟨?_, ?_, ?_, ?_⟩
  · simp only [playerAnalytics, topByPointsOf, List.length_take]
    omega
  · simp only [playerAnalytics, topByGamesOf, List.length_take]
    omega
  · exact (List.sorted_insertionSort _ coll).sublist (List.take_sublist 10 _)
  · exact (List.sorted_insertionSort _ coll).sublist (List.take_sublist 10 _)

/-- C9 counterexample: in the `/api/stats` handler's I/O trace the
telemetry fetch completes before the first repository call is even
issued, so the calls are not issued concurrently; with every operation
taking 100 time units the request takes 400 — the sum, not (roughly) the
maximum of the latencies. -/
theorem stats_fanout_sequential_counterexample :
    apiStatsTrace.indexOf (IoEvent.complete .telemetryFetch) <
      apiStatsTrace.indexOf (IoEvent.issue .peakQuery)
    ∧ traceLatency (fun _ => 100) apiStatsTrace = 400
    ∧ ¬ traceLatency (fun _ => 100) apiStatsTrace ≤ 100 := by
  refine ⟨by decide, by decide, by decide⟩

/-- C9 (amended): the `/api/stats` handler issues the telemetry fetch and
the three repository calls sequentially — each awaited to completion
before the next is issued — so its request latency is the sum of the four
operation latencies, not their maximum. -/
theorem stats_fanout_sequential :
    apiStatsTrace =
      [IoEvent.issue .telemetryFetch, IoEvent.complete .telemetryFetch,
       IoEvent.issue .peakQuery, IoEvent.complete .peakQuery,
       IoEvent.issue .countPlayers, IoEvent.complete .countPlayers,
       IoEvent.issue .countMatches, IoEvent.complete .countMatches]
    ∧ (∀ d : IoOp → Nat,
        traceLatency d apiStatsTrace =
          d .telemetryFetch + d .peakQuery + d .countPlayers + d .countMatches) := by
  refine ⟨rfl, fun d => ?_⟩
  simp [traceLatency, apiStatsTrace, awaitOp]

end ImpostorAdmin
